import Mathlib

/-!
# Verification of the geochatbot-3d-Buildings repository

A shallow embedding, in Lean 4, of the behaviourally relevant parts of the
repository:

* `backend/src/services/chatbot.js` — the keyword intent classifier
  (`ChatbotService.processQuery`) and the per-intent query executors;
* `backend/src/routes/chat.js` — the `POST /api/chat` handler;
* `backend/src/routes/buildings.js` — the Express route table of the
  buildings router;
* `frontend/src/components/Chatbot.tsx` (the `Map` component) — the
  geographic-to-scene projection `geoToScene`, the footprint-dependent
  height scaling, and the `flyToBuilding` camera framing.

Modelling conventions:

* Message texts are modelled as `List Nat` of character codes (the messages
  of interest are ASCII).  `lowerCode`/`toLowerMsg` model
  `String.prototype.toLowerCase` on that alphabet, and `incl` models
  `String.prototype.includes`.
* The JavaScript regular expressions used by the chatbot are each a fixed
  pattern over digits, whitespace, and short literals; for each of them no
  backtracking can change the outcome (after a maximal digit or whitespace
  run, the character class required next is disjoint from the one just
  consumed), so every pattern is modelled by a deterministic
  parse-at-a-position function plus a leftmost scan (`findMap`), exactly
  the leftmost-match semantics of `String.prototype.match`.
* The case-insensitive flag `/i` of those regexes is modelled by running
  the (lower-case-literal) pattern on the lower-cased text, which is
  equivalent on the ASCII alphabet.
* Database numbers are modelled as exact rationals `ℚ`; the database/pool
  is an oracle `Store` mapping an issued SQL statement (an element of the
  inductive `SqlQuery`, one constructor per SQL template in the source,
  carrying its bound parameters) to either rows or an error.
* Response strings are not rendered character-by-character: `Content`
  has one constructor per distinct template of the source, carrying the
  data interpolated into it, so template identity and all parameters are
  preserved while emoji/markdown rendering is elided.
* The fly-to camera framing computes with `Math.cos(Math.PI/4)` and
  `Math.sin(Math.PI/4)`; that part is modelled over `ℝ` with exact
  `Real.cos`/`Real.sin`.
-/

/-! ## Character-level string model -/

/-- ASCII lower-casing of one character code, as
`String.prototype.toLowerCase` acts on ASCII. -/
def lowerCode (c : Nat) : Nat := if 65 ≤ c ∧ c ≤ 90 then c + 32 else c

/-- `message.toLowerCase()` on a character-code list. -/
def toLowerMsg (m : List Nat) : List Nat := m.map lowerCode

/-- Character codes of a Lean string literal (used to write the
source's string literals). -/
def strCodes (s : String) : List Nat := s.data.map Char.toNat

/-- `m.includes(sub)` — substring containment test of JavaScript. -/
def incl (m sub : List Nat) : Bool := decide (sub <:+: m)

theorem lowerCode_idem (c : Nat) : lowerCode (lowerCode c) = lowerCode c := by
  unfold lowerCode
  split_ifs <;> omega

theorem toLowerMsg_idem (m : List Nat) : toLowerMsg (toLowerMsg m) = toLowerMsg m := by
  unfold toLowerMsg
  rw [List.map_map]
  exact List.map_congr_left fun c _ => lowerCode_idem c

/-! ## The intent classifier (`ChatbotService.processQuery`, chatbot.js 8–78) -/

/-- The twelve intents of `processQuery` plus the help fallback; each tag
names the handler method the corresponding branch dispatches to. -/
inductive IntentTag
  | tallest
  | shortest
  | topN
  | compare
  | heightRange
  | typeDistribution
  | search
  | statistics
  | nearby
  | specificBuilding
  | addressSearch
  | count
  | help
deriving DecidableEq, Repr

/-- Which handler runs for a message: the `if / else if` cascade of
`ChatbotService.processQuery` (chatbot.js lines 8–78), with every
trigger tested via `includes` on the lower-cased message. -/
def classifyTag (m : List Nat) : IntentTag :=
  let lower := toLowerMsg m
  if incl lower (strCodes "tallest") || incl lower (strCodes "highest") ||
      incl lower (strCodes "maximum height") then .tallest
  else if incl lower (strCodes "shortest") || incl lower (strCodes "lowest") ||
      incl lower (strCodes "minimum height") then .shortest
  else if incl lower (strCodes "top") &&
      (incl lower (strCodes "buildings") || incl lower (strCodes "tallest")) then .topN
  else if incl lower (strCodes "compare") || incl lower (strCodes "difference") ||
      incl lower (strCodes "vs") || incl lower (strCodes "versus") then .compare
  else if incl lower (strCodes "height range") || incl lower (strCodes "between") ||
      incl lower (strCodes "tall buildings") || incl lower (strCodes "skyscrapers") then .heightRange
  else if incl lower (strCodes "type") &&
      (incl lower (strCodes "distribution") || incl lower (strCodes "breakdown") ||
       incl lower (strCodes "category")) then .typeDistribution
  else if incl lower (strCodes "search") || incl lower (strCodes "find") ||
      incl lower (strCodes "show") || incl lower (strCodes "list") then .search
  else if incl lower (strCodes "statistics") || incl lower (strCodes "stats") ||
      incl lower (strCodes "summary") || incl lower (strCodes "overview") then .statistics
  else if incl lower (strCodes "near") || incl lower (strCodes "around") ||
      incl lower (strCodes "within") || incl lower (strCodes "distance") then .nearby
  else if incl lower (strCodes "empire state") || incl lower (strCodes "world trade") ||
      incl lower (strCodes "chrysler") then .specificBuilding
  else if incl lower (strCodes "address") || incl lower (strCodes "location") ||
      incl lower (strCodes "street") then .addressSearch
  else if incl lower (strCodes "how many") || incl lower (strCodes "count") ||
      incl lower (strCodes "total number") then .count
  else .help

/-- The same classifier presented as an explicit ordered decision list:
the trigger predicate of each intent, in the priority order of the spec's
table (§4.3). -/
def intentTriggers : List (IntentTag × (List Nat → Bool)) :=
  [ (.tallest, fun l => incl l (strCodes "tallest") || incl l (strCodes "highest") ||
      incl l (strCodes "maximum height")),
    (.shortest, fun l => incl l (strCodes "shortest") || incl l (strCodes "lowest") ||
      incl l (strCodes "minimum height")),
    (.topN, fun l => incl l (strCodes "top") &&
      (incl l (strCodes "buildings") || incl l (strCodes "tallest"))),
    (.compare, fun l => incl l (strCodes "compare") || incl l (strCodes "difference") ||
      incl l (strCodes "vs") || incl l (strCodes "versus")),
    (.heightRange, fun l => incl l (strCodes "height range") || incl l (strCodes "between") ||
      incl l (strCodes "tall buildings") || incl l (strCodes "skyscrapers")),
    (.typeDistribution, fun l => incl l (strCodes "type") &&
      (incl l (strCodes "distribution") || incl l (strCodes "breakdown") ||
       incl l (strCodes "category"))),
    (.search, fun l => incl l (strCodes "search") || incl l (strCodes "find") ||
      incl l (strCodes "show") || incl l (strCodes "list")),
    (.statistics, fun l => incl l (strCodes "statistics") || incl l (strCodes "stats") ||
      incl l (strCodes "summary") || incl l (strCodes "overview")),
    (.nearby, fun l => incl l (strCodes "near") || incl l (strCodes "around") ||
      incl l (strCodes "within") || incl l (strCodes "distance")),
    (.specificBuilding, fun l => incl l (strCodes "empire state") ||
      incl l (strCodes "world trade") || incl l (strCodes "chrysler")),
    (.addressSearch, fun l => incl l (strCodes "address") || incl l (strCodes "location") ||
      incl l (strCodes "street")),
    (.count, fun l => incl l (strCodes "how many") || incl l (strCodes "count") ||
      incl l (strCodes "total number")) ]

/-- First-match-wins evaluation of a decision list, falling back to help. -/
def firstMatch : List (IntentTag × (List Nat → Bool)) → List Nat → IntentTag
  | [], _ => .help
  | (t, p) :: rest, l => if p l then t else firstMatch rest l

/-- **C1.** The chat intent classifier is a first-match-wins decision list
in the fixed 12-intent priority order (tallest, shortest, top-N, compare,
height-range, type-distribution, search, statistics, nearby,
specific-building, address-search, count, help fallback): for **every**
message, the handler that runs is the first intent in `intentTriggers`
whose trigger substrings occur in the lower-cased message; in particular a
message containing both "tallest" and "how many" is handled by the
tallest intent (priority 1 beats priority 12). -/
theorem C1_classifier_decision_list (m : List Nat) :
    classifyTag m = firstMatch intentTriggers (toLowerMsg m) ∧
    (incl (toLowerMsg m) (strCodes "tallest") = true →
     incl (toLowerMsg m) (strCodes "how many") = true →
     classifyTag m = IntentTag.tallest) := by
  constructor
  · rfl
  · intro h1 _h2
    unfold classifyTag
    simp [h1]

/-- Witness for C1 at the concrete message
"How many TALLEST buildings are there?", which contains both trigger
substrings after lower-casing. -/
theorem C1_classifier_decision_list_witness :
    classifyTag (strCodes "How many TALLEST buildings are there?") =
      firstMatch intentTriggers (toLowerMsg (strCodes "How many TALLEST buildings are there?")) ∧
    classifyTag (strCodes "How many TALLEST buildings are there?") = IntentTag.tallest :=
  ⟨(C1_classifier_decision_list (strCodes "How many TALLEST buildings are there?")).1,
   (C1_classifier_decision_list (strCodes "How many TALLEST buildings are there?")).2
     (by decide) (by decide)⟩

/-! ## Geo projection and height scaling (Chatbot.tsx, `Map`) -/

/-- `bounds.minLng` (Chatbot.tsx line 332). -/
def minLng : ℚ := 39.6

/-- `bounds.maxLng` (Chatbot.tsx line 333). -/
def maxLng : ℚ := 40.0

/-- `bounds.minLat` (Chatbot.tsx line 334). -/
def minLat : ℚ := 21.2

/-- `bounds.maxLat` (Chatbot.tsx line 335). -/
def maxLat : ℚ := 21.6

/-- `Map.geoToScene` (Chatbot.tsx lines 578–582): the affine map from
geographic (lng, lat) to local scene (x, z). Total, no clamping. -/
def geoToScene (lng lat : ℚ) : ℚ × ℚ :=
  (((lng - minLng) / (maxLng - minLng)) * 1000 - 500,
   ((lat - minLat) / (maxLat - minLat)) * 1000 - 500)

/-- The footprint-size-dependent height scale factor
(Chatbot.tsx lines 641–654; the identical chain recurs in
`flyToBuilding` lines 776–785 and `getBuildingScreenPosition`). -/
def heightScale (footprintSize : ℚ) : ℚ :=
  if footprintSize < 5 then 0.3
  else if footprintSize < 15 then 0.5
  else if footprintSize < 30 then 0.7
  else 1.0

/-- `scaledHeight = buildingHeight * heightScale` (Chatbot.tsx line 656). -/
def scaledHeight (buildingHeight footprintSize : ℚ) : ℚ :=
  buildingHeight * heightScale footprintSize

/-- **C2.** The height scale factor is 0.3 for F < 5, 0.5 for 5 ≤ F < 15,
0.7 for 15 ≤ F < 30 and 1.0 for F ≥ 30; it is monotonically non-decreasing
in the footprint size, with boundary values F=5 → 0.5, F=15 → 0.7,
F=30 → 1.0; the extruded height is the real height times the factor. -/
theorem C2_height_scale_step (F G H : ℚ) (hFG : F ≤ G) :
    (F < 5 → heightScale F = 0.3) ∧
    (5 ≤ F → F < 15 → heightScale F = 0.5) ∧
    (15 ≤ F → F < 30 → heightScale F = 0.7) ∧
    (30 ≤ F → heightScale F = 1) ∧
    heightScale F ≤ heightScale G ∧
    heightScale 5 = 0.5 ∧ heightScale 15 = 0.7 ∧ heightScale 30 = 1 ∧
    scaledHeight H F = H * heightScale F := by
  refine ⟨?_, ?_, ?_, ?_, ?_, by norm_num [heightScale], by norm_num [heightScale],
    by norm_num [heightScale], rfl⟩
  · intro h; simp [heightScale, h]
  · intro h5 h15; rw [heightScale]; rw [if_neg (by linarith), if_pos h15]
  · intro h15 h30; rw [heightScale]; rw [if_neg (by linarith), if_neg (by linarith), if_pos h30]
  · intro h30; rw [heightScale]
    rw [if_neg (by linarith), if_neg (by linarith), if_neg (by linarith)]
    norm_num
  · unfold heightScale
    split_ifs <;> norm_num <;> linarith

/-- Witness for C2 at F = 3, G = 40, H = 7. -/
theorem C2_height_scale_step_witness :
    (3 : ℚ) < 5 ∧ heightScale 3 = 0.3 ∧ heightScale 3 ≤ heightScale 40 ∧
    scaledHeight 7 3 = 7 * heightScale 3 := by
  have h := C2_height_scale_step 3 40 7 (by norm_num)
  exact ⟨by norm_num, h.1 (by norm_num), h.2.2.2.2.1, h.2.2.2.2.2.2.2.2⟩

/-- **C3.** `geoToScene` is the total affine map
x = (lng − minLng)/(maxLng − minLng)·1000 − 500 (and likewise z from lat)
over the hardcoded box [39.6, 40.0] × [21.2, 21.6], with no error cases or
clamping, and it maps every in-box coordinate into [-500, 500] × [-500, 500]. -/
theorem C3_projection_bounds (lng lat : ℚ)
    (h1 : minLng ≤ lng) (h2 : lng ≤ maxLng) (h3 : minLat ≤ lat) (h4 : lat ≤ maxLat) :
    geoToScene lng lat =
      (((lng - minLng) / (maxLng - minLng)) * 1000 - 500,
       ((lat - minLat) / (maxLat - minLat)) * 1000 - 500) ∧
    -500 ≤ (geoToScene lng lat).1 ∧ (geoToScene lng lat).1 ≤ 500 ∧
    -500 ≤ (geoToScene lng lat).2 ∧ (geoToScene lng lat).2 ≤ 500 := by
  have hx : (geoToScene lng lat).1 = 2500 * lng - 99500 := by
    unfold geoToScene minLng maxLng
    ring_nf
  have hz : (geoToScene lng lat).2 = 2500 * lat - 53500 := by
    unfold geoToScene minLat maxLat
    ring_nf
  have h1' : (39.6 : ℚ) ≤ lng := h1
  have h2' : lng ≤ (40.0 : ℚ) := h2
  have h3' : (21.2 : ℚ) ≤ lat := h3
  have h4' : lat ≤ (21.6 : ℚ) := h4
  refine ⟨rfl, ?_, ?_, ?_, ?_⟩
  · rw [hx]; linarith
  · rw [hx]; linarith
  · rw [hz]; linarith
  · rw [hz]; linarith

/-- Witness for C3 at (lng, lat) = (39.8, 21.4). -/
theorem C3_projection_bounds_witness :
    -500 ≤ (geoToScene 39.8 21.4).1 ∧ (geoToScene 39.8 21.4).1 ≤ 500 ∧
    -500 ≤ (geoToScene 39.8 21.4).2 ∧ (geoToScene 39.8 21.4).2 ≤ 500 :=
  (C3_projection_bounds 39.8 21.4 (by norm_num [minLng]) (by norm_num [maxLng])
    (by norm_num [minLat]) (by norm_num [maxLat])).2

/-! ## Footprint centers (`Map.addBuildings`, Chatbot.tsx 597–618) -/

/-- The mean longitude and latitude of a polygon ring's points
(`centerLng`/`centerLat`, Chatbot.tsx lines 600–601). -/
def ringMean (ring : List (ℚ × ℚ)) : ℚ × ℚ :=
  ((ring.map Prod.fst).sum / ring.length, (ring.map Prod.snd).sum / ring.length)

/-- `centerPos` of a building: the projection of the mean longitude and
latitude (Chatbot.tsx line 602); the extruded volume is translated so its
footprint center sits at this point (line 681). -/
def centerPos (ring : List (ℚ × ℚ)) : ℚ × ℚ :=
  geoToScene (ringMean ring).1 (ringMean ring).2

/-- The ring's vertices after projection (lines 606–617 project every
ring point with `geoToScene`). -/
def projectedRing (ring : List (ℚ × ℚ)) : List (ℚ × ℚ) :=
  ring.map fun p => geoToScene p.1 p.2

/-- Centroid (componentwise mean) of a list of scene points. -/
def sceneCentroid (pts : List (ℚ × ℚ)) : ℚ × ℚ :=
  ((pts.map Prod.fst).sum / pts.length, (pts.map Prod.snd).sum / pts.length)

theorem affine_map_sum (a b : ℚ) (xs : List ℚ) :
    (xs.map fun x => a * x + b).sum = a * xs.sum + b * xs.length := by
  induction xs with
  | nil => simp
  | cons x xs ih => simp [ih]; ring

/-- **C9.** For every nonempty polygon ring, the footprint center used to
place the extruded building — the projection of the mean longitude and mean
latitude of the ring points — equals the centroid of the ring's projected
vertices (exactly, in the rational model, hence within floating tolerance),
because the projection is affine. -/
theorem C9_center_is_projected_centroid (ring : List (ℚ × ℚ)) (hne : ring ≠ []) :
    centerPos ring = sceneCentroid (projectedRing ring) := by
  have hn : (ring.length : ℚ) ≠ 0 := by
    have : ring.length ≠ 0 := fun h => hne (List.length_eq_zero.mp h)
    exact_mod_cast this
  have hx : ∀ lng lat : ℚ, (geoToScene lng lat).1 = 2500 * lng + (-99500) := by
    intro lng lat; unfold geoToScene minLng maxLng; ring_nf
  have hz : ∀ lng lat : ℚ, (geoToScene lng lat).2 = 2500 * lat + (-53500) := by
    intro lng lat; unfold geoToScene minLat maxLat; ring_nf
  unfold centerPos sceneCentroid projectedRing ringMean
  refine Prod.ext ?_ ?_
  · show (geoToScene _ _).1 = _
    rw [hx]
    have : ((ring.map fun p => geoToScene p.1 p.2).map Prod.fst) =
        (ring.map Prod.fst).map fun x => 2500 * x + (-99500) := by
      simp only [List.map_map]
      exact List.map_congr_left fun p _ => hx p.1 p.2
    simp only [this, affine_map_sum, List.length_map]
    field_simp
  · show (geoToScene _ _).2 = _
    rw [hz]
    have : ((ring.map fun p => geoToScene p.1 p.2).map Prod.snd) =
        (ring.map Prod.snd).map fun x => 2500 * x + (-53500) := by
      simp only [List.map_map]
      exact List.map_congr_left fun p _ => hz p.1 p.2
    simp only [this, affine_map_sum, List.length_map]
    field_simp

/-- Witness for C9 at the concrete triangle ring
[(39.8, 21.4), (39.9, 21.5), (39.7, 21.3)]. -/
theorem C9_center_is_projected_centroid_witness :
    centerPos [(39.8, 21.4), (39.9, 21.5), (39.7, 21.3)] =
      sceneCentroid (projectedRing [(39.8, 21.4), (39.9, 21.5), (39.7, 21.3)]) :=
  C9_center_is_projected_centroid _ (by simp)

/-! ## Deterministic models of the chatbot's regular expressions -/

/-- `\d` — ASCII digit character class. -/
def isDigit (c : Nat) : Bool := 48 ≤ c && c ≤ 57

/-- `\s` — whitespace character class (ASCII part). -/
def isSpace (c : Nat) : Bool :=
  c == 32 || c == 9 || c == 10 || c == 13 || c == 11 || c == 12

/-- Maximal digit run at the front: `(\d+)` (greedy; no later element of
these patterns can consume a digit, so greediness is exact). -/
def takeDigits : List Nat → List Nat × List Nat
  | [] => ([], [])
  | c :: cs =>
    if isDigit c then
      let p := takeDigits cs
      (c :: p.1, p.2)
    else ([], c :: cs)

/-- `\s*` (greedy; the following element is never a whitespace char). -/
def skipSpaces : List Nat → List Nat
  | [] => []
  | c :: cs => if isSpace c then skipSpaces cs else c :: cs

/-- `\s+`: at least one whitespace character, then `\s*`. -/
def skipSpaces1 : List Nat → Option (List Nat)
  | [] => none
  | c :: cs => if isSpace c then some (skipSpaces cs) else none

/-- Strip a literal from the front. -/
def stripLit : List Nat → List Nat → Option (List Nat)
  | [], l => some l
  | _ :: _, [] => none
  | p :: ps, c :: cs => if p = c then stripLit ps cs else none

/-- `(?:meters?|m)` succeeds exactly when the next character is `m`
(the bare `m` alternative already suffices for a match). -/
def unitAhead : List Nat → Bool
  | c :: _ => c == 109
  | [] => false

/-- The numeric value of a digit run: `parseInt`/`parseFloat` on the
captured group (which is a plain digit string). -/
def digitsToNat (ds : List Nat) : Nat :=
  ds.foldl (fun acc d => acc * 10 + (d - 48)) 0

/-- Leftmost-match scan: try the parse at every start position, leftmost
first — the match semantics of `String.prototype.match`. -/
def findMap {α : Type} (f : List Nat → Option α) : List Nat → Option α
  | [] => f []
  | c :: cs =>
    match f (c :: cs) with
    | some x => some x
    | none => findMap f cs

/-- One attempt of `/(\d+)\s*(?:meters?|m)/i` at a position
(`singleHeightMatch`, chatbot.js line 323); yields the digit group. -/
def singleHeightAt (l : List Nat) : Option Nat :=
  let p := takeDigits l
  if p.1.isEmpty then none
  else if unitAhead (skipSpaces p.2) then some (digitsToNat p.1) else none

/-- One attempt of `/over\s+(\d+)\s*(?:meters?|m)/i` at a position
(`overHeightMatch`, chatbot.js line 324). -/
def overHeightAt (l : List Nat) : Option Nat :=
  match stripLit (strCodes "over") l with
  | none => none
  | some r1 =>
    match skipSpaces1 r1 with
    | none => none
    | some r2 => singleHeightAt r2

/-- One attempt of `/under\s+(\d+)\s*(?:meters?|m)/i` at a position
(`underHeightMatch`, chatbot.js line 325). -/
def underHeightAt (l : List Nat) : Option Nat :=
  match stripLit (strCodes "under") l with
  | none => none
  | some r1 =>
    match skipSpaces1 r1 with
    | none => none
    | some r2 => singleHeightAt r2

/-- One attempt of `/(\d+)\s*(?:to|-)\s*(\d+)\s*(?:meters?|m)/i` at a
position (`heightMatch`, chatbot.js lines 225 and 322); yields both
digit groups. -/
def rangeHeightAt (l : List Nat) : Option (Nat × Nat) :=
  let p1 := takeDigits l
  if p1.1.isEmpty then none
  else
    let r2 := skipSpaces p1.2
    match (stripLit (strCodes "to") r2).orElse fun _ => stripLit (strCodes "-") r2 with
    | none => none
    | some r3 =>
      let p2 := takeDigits (skipSpaces r3)
      if p2.1.isEmpty then none
      else if unitAhead (skipSpaces p2.2) then
        some (digitsToNat p1.1, digitsToNat p2.1)
      else none

/-- One attempt of `/top\s+(\d+)/i` at a position
(`numberMatch`, chatbot.js line 23). -/
def topNAt (l : List Nat) : Option Nat :=
  match stripLit (strCodes "top") l with
  | none => none
  | some r1 =>
    match skipSpaces1 r1 with
    | none => none
    | some r2 =>
      let p := takeDigits r2
      if p.1.isEmpty then none else some (digitsToNat p.1)

/-! ## The building store and the SQL statements of chatbot.js -/

/-- A row of the `buildings` table as selected by every query
(`id, name, height, building_type, address, geometry`). -/
structure BuildingRow where
  id : Nat
  name : List Nat
  height : ℚ
  building_type : List Nat
  address : List Nat
  geometry : List (ℚ × ℚ)
deriving DecidableEq

/-- The height filter appended to the search SQL by
`ChatbotService.searchBuildings` (chatbot.js lines 337–356):
`between` is `height >= $i AND height <= $j`, `atLeast` is `height >= $i`,
`above` is `height > $i`, `below` is `height < $i`. -/
inductive HeightFilter
  | noFilter
  | between (lo hi : ℚ)
  | atLeast (n : ℚ)
  | above (n : ℚ)
  | below (n : ℚ)
deriving DecidableEq

/-- The SQL statements issued by `ChatbotService`, one constructor per
template, carrying the bound parameters. -/
inductive SqlQuery
  | tallestQ
  | shortestQ
  | topQ (limit : Nat)
  | compareQ (names : List (List Nat))
  | rangeQ (lo hi : ℚ)
  | typeDistQ
  | searchQ (types : List (List Nat)) (hf : HeightFilter)
  | statsQ
  | specificQ (name : List Nat)
  | addressQ (keywords : List (List Nat))
  | countAllQ
  | countTypesQ (types : List (List Nat))
deriving DecidableEq

/-- The database pool as an oracle: each issued statement either returns
rows or throws (`Except.error`). -/
abbrev Store := SqlQuery → Except Unit (List BuildingRow)

/-- A store in which every query fails. -/
def badStore : Store := fun _ => .error ()

/-- Response content: one constructor per distinct response template of
chatbot.js, carrying the data interpolated into the template (string
rendering of the template text itself is elided). -/
inductive Content
  | helpText
  | noData
  | apology (which : IntentTag)
  | tallestInfo (b : BuildingRow)
  | shortestInfo (b : BuildingRow)
  | topList (limit : Nat) (rows : List BuildingRow)
  | comparePrompt
  | compareInfo (rows : List BuildingRow)
  | compareNotFound
  | rangeSummary (lo hi : ℚ) (rows : List BuildingRow)
  | rangeEmpty (lo hi : ℚ)
  | typeDistSummary (rows : List BuildingRow)
  | typeDistEmpty
  | searchSummary (rows : List BuildingRow) (types : List (List Nat))
      (hf : HeightFilter) (mentionsOver mentionsUnder : Bool)
  | searchEmpty
  | statsSummary (rows : List BuildingRow)
  | statsEmpty
  | nearbyPrompt
  | specificInfo (b : BuildingRow)
  | specificPrompt
  | specificNotFound (name : List Nat)
  | addressSummary (rows : List BuildingRow)
  | addressPrompt
  | addressEmpty
  | countTotal (rows : List BuildingRow)
  | countByType (rows : List BuildingRow)
  | countEmpty (types : List (List Nat))
deriving DecidableEq

/-- The `type` tag of a ChatResponse. -/
inductive RType
  | text
  | building_highlight
  | search_results
deriving DecidableEq

/-- The chatbot's response object `{type, content, building?, buildings?}`. -/
structure ChatResponse where
  rtype : RType
  content : Content
  building : Option BuildingRow := none
  buildings : Option (List BuildingRow) := none
deriving DecidableEq

/-- The generic apology (`'Sorry, I encountered an error while …'`) each
handler returns from its catch block: plain text, no building payload. -/
def apologyResp (which : IntentTag) : ChatResponse :=
  { rtype := .text, content := .apology which }

/-- Is a content value one of the catch-block apology texts? -/
def isApology : Content → Bool
  | .apology _ => true
  | _ => false

/-! ## The intent handlers of `ChatbotService` -/

/-- The hardcoded known-name list of `compareBuildings` and
`getSpecificBuilding` (chatbot.js lines 172 and 447). -/
def knownBuildingNames : List (List Nat) :=
  [strCodes "empire state", strCodes "world trade", strCodes "chrysler",
   strCodes "bank of america", strCodes "new york times"]

/-- The hardcoded building-type keyword list of `searchBuildings` and
`getBuildingCount` (chatbot.js lines 318 and 534). -/
def buildingTypeKeywords : List (List Nat) :=
  [strCodes "office", strCodes "residential", strCodes "commercial",
   strCodes "hotel", strCodes "apartment", strCodes "retail",
   strCodes "industrial"]

/-- The address keyword list of `searchByAddress` (chatbot.js line 487). -/
def addressKeywords : List (List Nat) :=
  [strCodes "street", strCodes "avenue", strCodes "ave", strCodes "st",
   strCodes "road", strCodes "rd", strCodes "boulevard", strCodes "blvd"]

/-- `ChatbotService.getTallestBuilding` (chatbot.js 80–106); `res` is the
result of its `pool.query`. -/
def getTallestBuilding (res : Except Unit (List BuildingRow)) : ChatResponse :=
  match res with
  | .error _ => apologyResp .tallest
  | .ok rows =>
    match rows with
    | b :: _ => { rtype := .building_highlight, content := .tallestInfo b, building := some b }
    | [] => { rtype := .text, content := .noData }

/-- `ChatbotService.getShortestBuilding` (chatbot.js 108–134). -/
def getShortestBuilding (res : Except Unit (List BuildingRow)) : ChatResponse :=
  match res with
  | .error _ => apologyResp .shortest
  | .ok rows =>
    match rows with
    | b :: _ => { rtype := .building_highlight, content := .shortestInfo b, building := some b }
    | [] => { rtype := .text, content := .noData }

/-- `ChatbotService.getTopBuildings` (chatbot.js 136–167). -/
def getTopBuildings (limit : Nat) (res : Except Unit (List BuildingRow)) : ChatResponse :=
  match res with
  | .error _ => apologyResp .topN
  | .ok rows =>
    if rows.isEmpty then { rtype := .text, content := .noData }
    else { rtype := .search_results, content := .topList limit rows, buildings := some rows }

/-- The `foundBuildings` name filter of `compareBuildings`
(chatbot.js line 173). -/
def compareFoundNames (m : List Nat) : List (List Nat) :=
  knownBuildingNames.filter fun n => incl (toLowerMsg m) n

/-- `ChatbotService.compareBuildings` (chatbot.js 169–220). -/
def compareBuildings (st : Store) (m : List Nat) : ChatResponse :=
  let found := compareFoundNames m
  if found.length < 2 then { rtype := .text, content := .comparePrompt }
  else
    match st (.compareQ found) with
    | .error _ => apologyResp .compare
    | .ok rows =>
      match rows with
      | _ :: _ :: _ =>
        { rtype := .search_results, content := .compareInfo rows, buildings := some rows }
      | _ => { rtype := .text, content := .compareNotFound }

/-- `minHeight` of `getHeightRangeAnalysis`: the first group of the range
pattern, defaulting to 100 (chatbot.js line 226). -/
def rangeLo (m : List Nat) : ℚ :=
  match findMap rangeHeightAt (toLowerMsg m) with
  | some p => (p.1 : ℚ)
  | none => 100

/-- `maxHeight` of `getHeightRangeAnalysis`: the second group of the range
pattern, defaulting to 500 (chatbot.js line 227). -/
def rangeHi (m : List Nat) : ℚ :=
  match findMap rangeHeightAt (toLowerMsg m) with
  | some p => (p.2 : ℚ)
  | none => 500

/-- `ChatbotService.getHeightRangeAnalysis` (chatbot.js 222–268). -/
def getHeightRangeAnalysis (st : Store) (m : List Nat) : ChatResponse :=
  match st (.rangeQ (rangeLo m) (rangeHi m)) with
  | .error _ => apologyResp .heightRange
  | .ok rows =>
    if rows.isEmpty then { rtype := .text, content := .rangeEmpty (rangeLo m) (rangeHi m) }
    else { rtype := .search_results, content := .rangeSummary (rangeLo m) (rangeHi m) rows,
           buildings := some rows }

/-- `ChatbotService.getBuildingTypeAnalysis` (chatbot.js 270–313). -/
def getBuildingTypeAnalysis (res : Except Unit (List BuildingRow)) : ChatResponse :=
  match res with
  | .error _ => apologyResp .typeDistribution
  | .ok rows =>
    if rows.isEmpty then { rtype := .text, content := .typeDistEmpty }
    else { rtype := .text, content := .typeDistSummary rows }

/-- The `foundTypes` filter of `searchBuildings`/`getBuildingCount`
(chatbot.js lines 319 and 535). -/
def foundTypes (m : List Nat) : List (List Nat) :=
  buildingTypeKeywords.filter fun t => incl (toLowerMsg m) t

/-- The height-filter branch selection of `ChatbotService.searchBuildings`
(chatbot.js lines 322–356): the full-range pattern is tried first, then
the bare `N <unit>` pattern, then `over N <unit>`, then `under N <unit>`. -/
def searchHeightFilter (m : List Nat) : HeightFilter :=
  match findMap rangeHeightAt (toLowerMsg m) with
  | some p => .between (p.1 : ℚ) (p.2 : ℚ)
  | none =>
    match findMap singleHeightAt (toLowerMsg m) with
    | some n => .atLeast (n : ℚ)
    | none =>
      match findMap overHeightAt (toLowerMsg m) with
      | some n => .above (n : ℚ)
      | none =>
        match findMap underHeightAt (toLowerMsg m) with
        | some n => .below (n : ℚ)
        | none => .noFilter

/-- `ChatbotService.searchBuildings` (chatbot.js 315–392).  The response
content notes `over`/`under` whenever those patterns matched, independently
of which branch built the SQL (chatbot.js lines 366–367). -/
def searchBuildings (st : Store) (m : List Nat) : ChatResponse :=
  let lower := toLowerMsg m
  let types := foundTypes m
  let hf := searchHeightFilter m
  match st (.searchQ types hf) with
  | .error _ => apologyResp .search
  | .ok rows =>
    if rows.isEmpty then { rtype := .text, content := .searchEmpty }
    else
      { rtype := .search_results,
        content := .searchSummary rows types hf
          (findMap overHeightAt lower).isSome (findMap underHeightAt lower).isSome,
        buildings := some rows }

/-- `ChatbotService.getBuildingStatistics` (chatbot.js 394–443). -/
def getBuildingStatistics (res : Except Unit (List BuildingRow)) : ChatResponse :=
  match res with
  | .error _ => apologyResp .statistics
  | .ok rows =>
    if rows.isEmpty then { rtype := .text, content := .statsEmpty }
    else { rtype := .text, content := .statsSummary rows }

/-- `ChatbotService.getSpecificBuilding` (chatbot.js 445–482). -/
def getSpecificBuilding (st : Store) (m : List Nat) : ChatResponse :=
  match knownBuildingNames.find? fun n => incl (toLowerMsg m) n with
  | none => { rtype := .text, content := .specificPrompt }
  | some name =>
    match st (.specificQ name) with
    | .error _ => apologyResp .specificBuilding
    | .ok rows =>
      match rows with
      | b :: _ => { rtype := .building_highlight, content := .specificInfo b, building := some b }
      | [] => { rtype := .text, content := .specificNotFound name }

/-- The `foundKeywords` filter of `searchByAddress` (chatbot.js line 488). -/
def foundAddressKeywords (m : List Nat) : List (List Nat) :=
  addressKeywords.filter fun k => incl (toLowerMsg m) k

/-- `ChatbotService.searchByAddress` (chatbot.js 484–530). -/
def searchByAddress (st : Store) (m : List Nat) : ChatResponse :=
  let kws := foundAddressKeywords m
  if kws.isEmpty then { rtype := .text, content := .addressPrompt }
  else
    match st (.addressQ kws) with
    | .error _ => apologyResp .addressSearch
    | .ok rows =>
      if rows.isEmpty then { rtype := .text, content := .addressEmpty }
      else { rtype := .search_results, content := .addressSummary rows, buildings := some rows }

/-- `ChatbotService.getBuildingCount` (chatbot.js 532–574). -/
def getBuildingCount (st : Store) (m : List Nat) : ChatResponse :=
  let types := foundTypes m
  if types.isEmpty then
    match st .countAllQ with
    | .error _ => apologyResp .count
    | .ok rows => { rtype := .text, content := .countTotal rows }
  else
    match st (.countTypesQ types) with
    | .error _ => apologyResp .count
    | .ok rows =>
      if rows.isEmpty then { rtype := .text, content := .countEmpty types }
      else { rtype := .text, content := .countByType rows }

/-- `ChatbotService.getNearbyBuildings` (chatbot.js 576–582): the nearby
intent is recognised but unimplemented; it always returns a fixed prompt
and never queries the store. -/
def getNearbyBuildings : ChatResponse :=
  { rtype := .text, content := .nearbyPrompt }

/-- The top-N limit: `parseInt` of the `/top\\s+(\\d+)/i` group on the
lower-cased message, defaulting to 5 (chatbot.js lines 23–24). -/
def topLimit (m : List Nat) : Nat :=
  match findMap topNAt (toLowerMsg m) with
  | some n => n
  | none => 5

/-- `ChatbotService.processQuery` (chatbot.js 8–78): the `if / else if`
trigger cascade (captured by `classifyTag`) dispatches to the matching
handler; presented as classifier-then-executor, which unfolds to exactly
the source's nested conditionals. -/
def processQuery (st : Store) (m : List Nat) : ChatResponse :=
  match classifyTag m with
  | .tallest => getTallestBuilding (st .tallestQ)
  | .shortest => getShortestBuilding (st .shortestQ)
  | .topN => getTopBuildings (topLimit m) (st (.topQ (topLimit m)))
  | .compare => compareBuildings st m
  | .heightRange => getHeightRangeAnalysis st m
  | .typeDistribution => getBuildingTypeAnalysis (st .typeDistQ)
  | .search => searchBuildings st m
  | .statistics => getBuildingStatistics (st .statsQ)
  | .nearby => getNearbyBuildings
  | .specificBuilding => getSpecificBuilding st m
  | .addressSearch => searchByAddress st m
  | .count => getBuildingCount st m
  | .help => { rtype := .text, content := .helpText }

/-! ## The shadowed over/under branches of `searchBuildings` -/

theorem skipSpaces_suffix (l : List Nat) : skipSpaces l <:+ l := by
  induction l with
  | nil => exact List.suffix_refl _
  | cons c cs ih =>
    unfold skipSpaces
    split
    · exact ih.trans (List.suffix_cons c cs)
    · exact List.suffix_refl _

theorem stripLit_suffix (lit : List Nat) :
    ∀ l r : List Nat, stripLit lit l = some r → r <:+ l := by
  induction lit with
  | nil => intro l r h; simp [stripLit] at h; simp [h]
  | cons p ps ih =>
    intro l r h
    match l with
    | [] => simp [stripLit] at h
    | c :: cs =>
      unfold stripLit at h
      split at h
      · exact (ih cs r h).trans (List.suffix_cons c cs)
      · exact absurd h (by simp)

theorem skipSpaces1_suffix (l r : List Nat) (h : skipSpaces1 l = some r) : r <:+ l := by
  cases l with
  | nil => simp [skipSpaces1] at h
  | cons c cs =>
    simp only [skipSpaces1] at h
    split at h
    · obtain rfl : skipSpaces cs = r := Option.some.inj h
      exact (skipSpaces_suffix cs).trans (List.suffix_cons c cs)
    · exact absurd h (by simp)

/-- Every match of the `over N <unit>` pattern contains a match of the bare
`N <unit>` pattern at a later position. -/
theorem overHeightAt_has_single (l : List Nat) (n : Nat) (h : overHeightAt l = some n) :
    ∃ l', l' <:+ l ∧ singleHeightAt l' = some n := by
  unfold overHeightAt at h
  split at h
  · exact absurd h (by simp)
  · rename_i r1 hstrip
    split at h
    · exact absurd h (by simp)
    · rename_i r2 hskip
      exact ⟨r2, (skipSpaces1_suffix r1 r2 hskip).trans (stripLit_suffix _ l r1 hstrip), h⟩

/-- Likewise for `under N <unit>`. -/
theorem underHeightAt_has_single (l : List Nat) (n : Nat) (h : underHeightAt l = some n) :
    ∃ l', l' <:+ l ∧ singleHeightAt l' = some n := by
  unfold underHeightAt at h
  split at h
  · exact absurd h (by simp)
  · rename_i r1 hstrip
    split at h
    · exact absurd h (by simp)
    · rename_i r2 hskip
      exact ⟨r2, (skipSpaces1_suffix r1 r2 hskip).trans (stripLit_suffix _ l r1 hstrip), h⟩

theorem findMap_none_suffix {α : Type} (f : List Nat → Option α) (l : List Nat)
    (h : findMap f l = none) : ∀ l', l' <:+ l → f l' = none := by
  induction l with
  | nil =>
    intro l' hl'
    obtain rfl := List.suffix_nil.mp hl'
    simpa [findMap] using h
  | cons c cs ih =>
    intro l' hl'
    unfold findMap at h
    split at h
    · exact absurd h (by simp)
    · rename_i hf
      rcases List.suffix_cons_iff.mp hl' with rfl | htail
      · exact hf
      · exact ih h l' htail

theorem findMap_some_suffix {α : Type} (f : List Nat → Option α) (l : List Nat) (x : α)
    (h : findMap f l = some x) : ∃ l', l' <:+ l ∧ f l' = some x := by
  induction l with
  | nil => exact ⟨[], List.suffix_refl _, by simpa [findMap] using h⟩
  | cons c cs ih =>
    unfold findMap at h
    split at h
    · rename_i hf
      obtain rfl : _ = x := by simpa using h
      exact ⟨c :: cs, List.suffix_refl _, hf⟩
    · obtain ⟨l', hsuf, hfl'⟩ := ih h
      exact ⟨l', hsuf.trans (List.suffix_cons c cs), hfl'⟩

/-- Whenever the `over N` or `under N` pattern matches somewhere in the
text, the bare `N <unit>` pattern also matches: the `else if` chain of
`searchBuildings` therefore never reaches its `over`/`under` branches. -/
theorem searchHeightFilter_over_under_dead (m : List Nat) :
    searchHeightFilter m =
      (match findMap rangeHeightAt (toLowerMsg m) with
       | some p => HeightFilter.between (p.1 : ℚ) (p.2 : ℚ)
       | none =>
         match findMap singleHeightAt (toLowerMsg m) with
         | some n => HeightFilter.atLeast (n : ℚ)
         | none => HeightFilter.noFilter) := by
  unfold searchHeightFilter
  cases hr : findMap rangeHeightAt (toLowerMsg m) with
  | some p => rfl
  | none =>
    cases hs : findMap singleHeightAt (toLowerMsg m) with
    | some n => rfl
    | none =>
      have hover : findMap overHeightAt (toLowerMsg m) = none := by
        cases ho : findMap overHeightAt (toLowerMsg m) with
        | none => rfl
        | some n =>
          obtain ⟨l0, hsuf0, h0⟩ := findMap_some_suffix overHeightAt _ n ho
          obtain ⟨l1, hsuf1, h1⟩ := overHeightAt_has_single l0 n h0
          have := findMap_none_suffix singleHeightAt _ hs l1 (hsuf1.trans hsuf0)
          rw [this] at h1
          exact absurd h1 (by simp)
      have hunder : findMap underHeightAt (toLowerMsg m) = none := by
        cases hu : findMap underHeightAt (toLowerMsg m) with
        | none => rfl
        | some n =>
          obtain ⟨l0, hsuf0, h0⟩ := findMap_some_suffix underHeightAt _ n hu
          obtain ⟨l1, hsuf1, h1⟩ := underHeightAt_has_single l0 n h0
          have := findMap_none_suffix singleHeightAt _ hs l1 (hsuf1.trans hsuf0)
          rw [this] at h1
          exact absurd h1 (by simp)
      rw [hover, hunder]

/-- **C4.** The claim fails on the code: a search message containing
"under N meters" (and no range) is filtered with `height >= N`, not
`height < N`, because the bare-number pattern `(\d+)\s*(?:meters?|m)` is
tested before the `under` pattern and matches inside every `under N
meters` occurrence; symmetrically "over N meters" also yields
`height >= N`.  The first conjunct shows the over/under branches are
unreachable for every message; the remaining conjuncts evaluate the code
at the failing inputs (which do classify as the search intent, and whose
response text would still claim "under 100m" since `underHeightMatch`
itself matched). -/
theorem C4_search_under_over_bug :
    (∀ m : List Nat, searchHeightFilter m =
      (match findMap rangeHeightAt (toLowerMsg m) with
       | some p => HeightFilter.between (p.1 : ℚ) (p.2 : ℚ)
       | none =>
         match findMap singleHeightAt (toLowerMsg m) with
         | some n => HeightFilter.atLeast (n : ℚ)
         | none => HeightFilter.noFilter)) ∧
    classifyTag (strCodes "find buildings under 100 meters") = IntentTag.search ∧
    searchHeightFilter (strCodes "find buildings under 100 meters") = .atLeast 100 ∧
    (findMap underHeightAt (toLowerMsg (strCodes "find buildings under 100 meters"))).isSome
      = true ∧
    classifyTag (strCodes "find buildings over 300 meters") = IntentTag.search ∧
    searchHeightFilter (strCodes "find buildings over 300 meters") = .atLeast 300 := by
  exact ⟨searchHeightFilter_over_under_dead, by decide, by decide, by decide,
    by decide, by decide⟩

/-! ## Catch-block behaviour of every handler (error handling) -/

theorem compareBuildings_badStore_parts (m : List Nat) :
    (compareBuildings badStore m).rtype = RType.text ∧
    (compareBuildings badStore m).building = none ∧
    (compareBuildings badStore m).buildings = none := by
  simp only [compareBuildings]
  split
  · exact ⟨rfl, rfl, rfl⟩
  · exact ⟨rfl, rfl, rfl⟩

theorem getSpecificBuilding_badStore_parts (m : List Nat) :
    (getSpecificBuilding badStore m).rtype = RType.text ∧
    (getSpecificBuilding badStore m).building = none ∧
    (getSpecificBuilding badStore m).buildings = none := by
  simp only [getSpecificBuilding]
  split
  · exact ⟨rfl, rfl, rfl⟩
  · exact ⟨rfl, rfl, rfl⟩

theorem searchByAddress_badStore_parts (m : List Nat) :
    (searchByAddress badStore m).rtype = RType.text ∧
    (searchByAddress badStore m).building = none ∧
    (searchByAddress badStore m).buildings = none := by
  simp only [searchByAddress]
  split
  · exact ⟨rfl, rfl, rfl⟩
  · exact ⟨rfl, rfl, rfl⟩

theorem getBuildingCount_badStore_parts (m : List Nat) :
    (getBuildingCount badStore m).rtype = RType.text ∧
    (getBuildingCount badStore m).building = none ∧
    (getBuildingCount badStore m).buildings = none := by
  simp only [getBuildingCount]
  split
  · exact ⟨rfl, rfl, rfl⟩
  · exact ⟨rfl, rfl, rfl⟩

theorem processQuery_badStore_parts (m : List Nat) :
    (processQuery badStore m).rtype = RType.text ∧
    (processQuery badStore m).building = none ∧
    (processQuery badStore m).buildings = none := by
  unfold processQuery
  cases classifyTag m <;>
    first
      | exact ⟨rfl, rfl, rfl⟩
      | exact compareBuildings_badStore_parts m
      | exact getSpecificBuilding_badStore_parts m
      | exact searchByAddress_badStore_parts m
      | exact getBuildingCount_badStore_parts m

/-- **C7.** Every intent handler catches a failing store query and returns
the generic apology: a `text` response with no `building` and no
`buildings` field; the error is never propagated (the handlers and
`processQuery` are total functions into `ChatResponse`).  The first
conjunct states it end-to-end: against a store in which every query
throws, `processQuery` still answers, with type `text` and no building
payload, for every message; the remaining conjuncts give each handler's
catch-block result (for the handlers that guard the query behind a
parameter check, the no-query prompt branch is stated alongside). -/
theorem C7_store_error_never_propagates :
    (∀ m : List Nat, (processQuery badStore m).rtype = RType.text ∧
      (processQuery badStore m).building = none ∧
      (processQuery badStore m).buildings = none) ∧
    getTallestBuilding (.error ()) = apologyResp .tallest ∧
    getShortestBuilding (.error ()) = apologyResp .shortest ∧
    (∀ n, getTopBuildings n (.error ()) = apologyResp .topN) ∧
    (∀ m, compareBuildings badStore m =
      if (compareFoundNames m).length < 2 then
        { rtype := RType.text, content := Content.comparePrompt }
      else apologyResp .compare) ∧
    (∀ m, getHeightRangeAnalysis badStore m = apologyResp .heightRange) ∧
    getBuildingTypeAnalysis (.error ()) = apologyResp .typeDistribution ∧
    (∀ m, searchBuildings badStore m = apologyResp .search) ∧
    getBuildingStatistics (.error ()) = apologyResp .statistics ∧
    (∀ m, getSpecificBuilding badStore m =
      match knownBuildingNames.find? fun n => incl (toLowerMsg m) n with
      | none => { rtype := RType.text, content := Content.specificPrompt }
      | some _ => apologyResp .specificBuilding) ∧
    (∀ m, searchByAddress badStore m =
      if (foundAddressKeywords m).isEmpty then
        { rtype := RType.text, content := Content.addressPrompt }
      else apologyResp .addressSearch) ∧
    (∀ m, getBuildingCount badStore m = apologyResp .count) := by
  refine ⟨processQuery_badStore_parts, rfl, rfl, fun n => rfl, fun m => ?_, fun m => rfl,
    rfl, fun m => rfl, rfl, fun m => ?_, fun m => ?_, fun m => ?_⟩
  · simp only [compareBuildings]
    split <;> rfl
  · simp only [getSpecificBuilding]
    split <;> rfl
  · simp only [searchByAddress]
    split <;> rfl
  · simp only [getBuildingCount]
    split <;> rfl

/-! ## `POST /api/chat` (chat.js 8–28) -/

/-- The JSON value found at `req.body.message` (absence modelled by
`Option` at the call site). -/
inductive JsonVal
  | str (s : List Nat)
  | num (q : ℚ)
  | boolean (b : Bool)
  | null
deriving DecidableEq

/-- JavaScript truthiness of such a value (`!message` is its negation):
the empty string, `0`, `false` and `null` are falsy. -/
def jsTruthy : JsonVal → Bool
  | .str s => !s.isEmpty
  | .num q => decide (q ≠ 0)
  | .boolean b => b
  | .null => false

/-- `typeof message === 'string'`. -/
def jsIsString : JsonVal → Bool
  | .str _ => true
  | _ => false

/-- The route's outcome: HTTP 400 with the fixed error JSON, or 200 with
the chatbot's response. -/
inductive ChatHttp
  | badRequest
  | ok (r : ChatResponse)
deriving DecidableEq

/-- `router.post('/')` of chat.js (lines 8–28): destructure `message` from
the body and reject with 400 when `!message || typeof message !== 'string'`;
otherwise answer with `chatbotService.processQuery(message)`. -/
def chatPost (st : Store) (message : Option JsonVal) : ChatHttp :=
  match message with
  | none => .badRequest
  | some v =>
    if !jsTruthy v || !jsIsString v then .badRequest
    else
      match v with
      | .str s => .ok (processQuery st s)
      | _ => .badRequest

/-- The spec-side rejection predicate of the amended claim: the message is
missing, not a string, or the empty string. -/
def messageMissingNonStringOrEmpty : Option JsonVal → Prop
  | some (.str s) => s = []
  | _ => True

theorem chatPost_str_eq (st : Store) (s : List Nat) :
    chatPost st (some (.str s)) =
      if s.isEmpty then .badRequest else .ok (processQuery st s) := by
  cases hs : s.isEmpty <;> simp [chatPost, jsTruthy, jsIsString, hs]

theorem chatPost_num_eq (st : Store) (q : ℚ) :
    chatPost st (some (.num q)) = .badRequest := by
  simp [chatPost, jsTruthy, jsIsString]

theorem chatPost_bool_eq (st : Store) (b : Bool) :
    chatPost st (some (.boolean b)) = .badRequest := by
  cases b <;> simp [chatPost, jsTruthy, jsIsString]

/-- **C8 counterexample.** The claim "400 exactly when `message` is
missing or not a string; every string message gets the classifier
response" fails at `{message: ""}`: the empty string is a string, yet
`!message` is true for it, so the route answers 400. -/
theorem C8_counterexample_empty_string :
    jsIsString (.str (strCodes "")) = true ∧
    chatPost badStore (some (.str (strCodes ""))) = .badRequest := by
  exact ⟨rfl, rfl⟩

/-- **C8 (amended).** `POST /api/chat` responds 400 exactly when the
body's `message` is missing, not a string, or the empty string (JS
falsiness also rejects `""`); for every nonempty string it returns the
classifier/executor's response; in particular `{message: 123}` yields
400. -/
theorem C8_chat_route_validation (st : Store) (mv : Option JsonVal) (s : List Nat)
    (hmv : mv = some (.str s)) (hne : s ≠ []) :
    (∀ mv' : Option JsonVal,
      (chatPost st mv' = .badRequest ↔ messageMissingNonStringOrEmpty mv')) ∧
    chatPost st (some (.num 123)) = .badRequest ∧
    chatPost st mv = .ok (processQuery st s) := by
  refine ⟨fun mv' => ?_, chatPost_num_eq st 123, ?_⟩
  · match mv' with
    | none => simp [chatPost, messageMissingNonStringOrEmpty]
    | some (.str s') =>
      rw [chatPost_str_eq]
      show _ ↔ s' = []
      rw [← List.isEmpty_iff]
      cases hs : s'.isEmpty <;> simp
    | some (.num q) => simp [chatPost_num_eq, messageMissingNonStringOrEmpty]
    | some (.boolean b) => simp [chatPost_bool_eq, messageMissingNonStringOrEmpty]
    | some .null => simp [chatPost, messageMissingNonStringOrEmpty]
  · subst hmv
    rw [chatPost_str_eq, if_neg (by simpa [List.isEmpty_iff] using hne)]

/-- Witness for C8 at the nonempty string message "hi". -/
theorem C8_chat_route_validation_witness :
    chatPost badStore (some (.str (strCodes "hi"))) =
      .ok (processQuery badStore (strCodes "hi")) :=
  (C8_chat_route_validation badStore (some (.str (strCodes "hi"))) (strCodes "hi") rfl
    (by decide)).2.2

/-! ## The buildings router (buildings.js) -/

/-- One path segment of an Express route pattern: a literal or a `:name`
parameter (which matches any single nonempty segment). -/
inductive Seg
  | lit (s : List Nat)
  | param (name : List Nat)

/-- The handlers of the buildings router. -/
inductive BRoute
  | allB
  | tallestR
  | searchR
  | nearbyR
  | statsR
  | byId
  | randomR
  | byType
deriving DecidableEq, Repr

/-- The route table of buildings.js in registration order: `/` (line 6),
`/tallest` (19), `/search` (32), `/nearby` (69), `/statistics` (95),
`/:id` (118), `/random` (139), `/type/:buildingType` (155).  Note that
`/:id` is registered before `/random`. -/
def buildingsRoutes : List (BRoute × List Seg) :=
  [ (.allB, []),
    (.tallestR, [.lit (strCodes "tallest")]),
    (.searchR, [.lit (strCodes "search")]),
    (.nearbyR, [.lit (strCodes "nearby")]),
    (.statsR, [.lit (strCodes "statistics")]),
    (.byId, [.param (strCodes "id")]),
    (.randomR, [.lit (strCodes "random")]),
    (.byType, [.lit (strCodes "type"), .param (strCodes "buildingType")]) ]

/-- Does one pattern segment match one (nonempty) path segment? -/
def segMatches : Seg → List Nat → Bool
  | .lit s, seg => decide (s = seg)
  | .param _, seg => !seg.isEmpty

/-- Does a whole pattern match a path (segment lists of equal length,
segmentwise match)? -/
def patMatches : List Seg → List (List Nat) → Bool
  | [], [] => true
  | p :: ps, s :: ss => segMatches p s && patMatches ps ss
  | _, _ => false

/-- Express dispatch: the first registered route whose pattern matches the
request path handles the request. -/
def dispatchBuildings (path : List (List Nat)) : Option BRoute :=
  (buildingsRoutes.find? fun r => patMatches r.2 path).map Prod.fst

/-- PostgreSQL parsing of a text bound to the `integer` column `id`
(`WHERE id = $1`, buildings.js line 123): digits parse, anything else
(such as "random") makes the query throw. -/
def pgParseInt (s : List Nat) : Option Nat :=
  if !s.isEmpty && s.all isDigit then some (digitsToNat s) else none

/-- The `/:id` handler (buildings.js 118–136): a failed query is caught
and answered 500; an unknown id is 404; otherwise 200. -/
def byIdStatus (db : List BuildingRow) (idStr : List Nat) : Nat :=
  match pgParseInt idStr with
  | none => 500
  | some i => if db.any fun r => r.id == i then 200 else 404

/-- **C5.** The claim fails on the code: `GET /api/buildings/random` is
captured by the `/:id` route, which is registered before `/random`
(buildings.js lines 118 vs 139), so the random-sample handler is
unreachable; binding the text "random" to the integer `id` column makes
the query throw, and the handler answers 500 for every database state.
The `/random` pattern itself would match the path — it is purely the
registration order that shadows it. -/
theorem C5_random_route_shadowed (db : List BuildingRow) :
    dispatchBuildings [strCodes "random"] = some BRoute.byId ∧
    some BRoute.byId ≠ some BRoute.randomR ∧
    patMatches [Seg.lit (strCodes "random")] [strCodes "random"] = true ∧
    pgParseInt (strCodes "random") = none ∧
    byIdStatus db (strCodes "random") = 500 := by
  refine ⟨by decide, by decide, by decide, by decide, ?_⟩
  unfold byIdStatus
  rw [show pgParseInt (strCodes "random") = none from by decide]

/-! ## Fly-to camera framing (`Map.flyToBuilding`, Chatbot.tsx 789–809) -/

/-- `distance = Math.max(buildingSize * 2.5, 30)` with
`buildingSize = Math.max(footprintSize, scaledHeight)` (lines 791–792). -/
noncomputable def flyDistance (footprintSize sh : ℝ) : ℝ :=
  max (max footprintSize sh * 2.5) 30

/-- The camera position set by `flyToBuilding` (lines 795–800):
`(centerX − d·cos(π/4), scaledHeight + d·sin(π/4), centerZ + d·sin(π/4))`. -/
noncomputable def flyCameraPos (cx cz footprintSize sh : ℝ) : ℝ × ℝ × ℝ :=
  (cx - flyDistance footprintSize sh * Real.cos (Real.pi / 4),
   sh + flyDistance footprintSize sh * Real.sin (Real.pi / 4),
   cz + flyDistance footprintSize sh * Real.sin (Real.pi / 4))

/-- The orbit-controls look-at target set by `flyToBuilding` (line 806):
`(centerX, scaledHeight / 2, centerZ)`. -/
noncomputable def flyTarget (cx cz sh : ℝ) : ℝ × ℝ × ℝ := (cx, sh / 2, cz)

/-- Squared Euclidean distance between two scene points. -/
noncomputable def distSq (p q : ℝ × ℝ × ℝ) : ℝ :=
  (p.1 - q.1) ^ 2 + (p.2.1 - q.2.1) ^ 2 + (p.2.2 - q.2.2) ^ 2

/-- Squared horizontal (ground-plane) distance between two scene points. -/
noncomputable def horizDistSq (p q : ℝ × ℝ × ℝ) : ℝ :=
  (p.1 - q.1) ^ 2 + (p.2.2 - q.2.2) ^ 2

/-- **C6 counterexample.** The claim "the camera ends up at distance
`max(max(footprintSize, scaledHeight) * 2.5, 30)` from the building's
projected center at a fixed 45° elevation" fails at a building with
projected center (0, 0), footprint size 40 and scaled height 40: there
the code's camera sits at squared distance 16600 + 4000·√2 from the
center, not at distance² = 100² = 10000. -/
theorem C6_counterexample_distance :
    distSq (flyCameraPos 0 0 40 40) (0, 0, 0) ≠ (flyDistance 40 40) ^ 2 := by
  have hd : flyDistance 40 40 = 100 := by
    unfold flyDistance
    rw [max_self]
    norm_num
  have h2 : Real.sqrt 2 ^ 2 = 2 := Real.sq_sqrt (by norm_num)
  have h0 : 0 ≤ Real.sqrt 2 := Real.sqrt_nonneg 2
  unfold distSq flyCameraPos
  rw [hd, Real.cos_pi_div_four, Real.sin_pi_div_four]
  intro h
  nlinarith [h2, h0]

/-- **C6 (amended).** `flyToBuilding` places the camera at offset
`(−d·cos 45°, +d·sin 45°)` in the ground plane from the building's
projected center and at height `scaledHeight + d·sin 45°`, where
`d = max(max(footprintSize, scaledHeight)·2.5, 30)`: its horizontal
distance from the center is exactly `d`, but its straight-line distance
from the center strictly exceeds `d` whenever the scaled height is
positive (so it is not "at distance d at 45° elevation"); the
orbit-controls look-at target is the building's horizontal center at half
its scaled height, exactly as claimed. -/
theorem C6_flyto_framing (cx cz fs sh : ℝ) (hsh : 0 < sh) :
    flyCameraPos cx cz fs sh =
      (cx - flyDistance fs sh * (Real.sqrt 2 / 2),
       sh + flyDistance fs sh * (Real.sqrt 2 / 2),
       cz + flyDistance fs sh * (Real.sqrt 2 / 2)) ∧
    flyTarget cx cz sh = (cx, sh / 2, cz) ∧
    30 ≤ flyDistance fs sh ∧
    horizDistSq (flyCameraPos cx cz fs sh) (cx, 0, cz) = flyDistance fs sh ^ 2 ∧
    flyDistance fs sh ^ 2 < distSq (flyCameraPos cx cz fs sh) (cx, 0, cz) := by
  have h2 : Real.sqrt 2 ^ 2 = 2 := Real.sq_sqrt (by norm_num)
  have h0 : 0 ≤ Real.sqrt 2 := Real.sqrt_nonneg 2
  have hd30 : (30 : ℝ) ≤ flyDistance fs sh := le_max_right _ _
  refine ⟨?_, rfl, hd30, ?_, ?_⟩
  · unfold flyCameraPos
    rw [Real.cos_pi_div_four, Real.sin_pi_div_four]
  · unfold horizDistSq flyCameraPos
    rw [Real.cos_pi_div_four, Real.sin_pi_div_four]
    ring_nf
    nlinarith [h2]
  · unfold distSq flyCameraPos
    rw [Real.cos_pi_div_four, Real.sin_pi_div_four]
    nlinarith [h2, h0, hsh, hd30, mul_pos hsh (lt_of_lt_of_le (by norm_num : (0:ℝ) < 30) hd30)]

/-- Witness for C6 (amended) at (cx, cz, fs, sh) = (0, 0, 40, 40). -/
theorem C6_flyto_framing_witness :
    flyTarget 0 0 40 = ((0 : ℝ), 20, 0) ∧
    horizDistSq (flyCameraPos 0 0 40 40) (0, 0, 0) = flyDistance 40 40 ^ 2 ∧
    flyDistance 40 40 ^ 2 < distSq (flyCameraPos 0 0 40 40) (0, 0, 0) := by
  have h := C6_flyto_framing 0 0 40 40 (by norm_num)
  refine ⟨?_, h.2.2.2.1, h.2.2.2.2⟩
  rw [h.2.1]
  norm_num

/-! ## Case-insensitivity of the whole pipeline -/

theorem classifyTag_toLower (m : List Nat) :
    classifyTag (toLowerMsg m) = classifyTag m := by
  simp only [classifyTag, toLowerMsg_idem]

theorem topLimit_toLower (m : List Nat) : topLimit (toLowerMsg m) = topLimit m := by
  simp only [topLimit, toLowerMsg_idem]

theorem compareFoundNames_toLower (m : List Nat) :
    compareFoundNames (toLowerMsg m) = compareFoundNames m := by
  simp only [compareFoundNames, toLowerMsg_idem]

theorem foundTypes_toLower (m : List Nat) : foundTypes (toLowerMsg m) = foundTypes m := by
  simp only [foundTypes, toLowerMsg_idem]

theorem foundAddressKeywords_toLower (m : List Nat) :
    foundAddressKeywords (toLowerMsg m) = foundAddressKeywords m := by
  simp only [foundAddressKeywords, toLowerMsg_idem]

theorem rangeLo_toLower (m : List Nat) : rangeLo (toLowerMsg m) = rangeLo m := by
  simp only [rangeLo, toLowerMsg_idem]

theorem rangeHi_toLower (m : List Nat) : rangeHi (toLowerMsg m) = rangeHi m := by
  simp only [rangeHi, toLowerMsg_idem]

theorem searchHeightFilter_toLower (m : List Nat) :
    searchHeightFilter (toLowerMsg m) = searchHeightFilter m := by
  simp only [searchHeightFilter, toLowerMsg_idem]

theorem compareBuildings_toLower (st : Store) (m : List Nat) :
    compareBuildings st (toLowerMsg m) = compareBuildings st m := by
  simp only [compareBuildings, compareFoundNames_toLower]

theorem getHeightRangeAnalysis_toLower (st : Store) (m : List Nat) :
    getHeightRangeAnalysis st (toLowerMsg m) = getHeightRangeAnalysis st m := by
  simp only [getHeightRangeAnalysis, rangeLo_toLower, rangeHi_toLower]

theorem searchBuildings_toLower (st : Store) (m : List Nat) :
    searchBuildings st (toLowerMsg m) = searchBuildings st m := by
  simp only [searchBuildings, foundTypes_toLower, searchHeightFilter_toLower, toLowerMsg_idem]

theorem getSpecificBuilding_toLower (st : Store) (m : List Nat) :
    getSpecificBuilding st (toLowerMsg m) = getSpecificBuilding st m := by
  simp only [getSpecificBuilding, toLowerMsg_idem]

theorem searchByAddress_toLower (st : Store) (m : List Nat) :
    searchByAddress st (toLowerMsg m) = searchByAddress st m := by
  simp only [searchByAddress, foundAddressKeywords_toLower]

theorem getBuildingCount_toLower (st : Store) (m : List Nat) :
    getBuildingCount st (toLowerMsg m) = getBuildingCount st m := by
  simp only [getBuildingCount, foundTypes_toLower]

/-- Which single SQL statement (if any) a message leads `processQuery` to
issue — every handler's query is determined by the message alone, before
any store result is seen. -/
def issuedQuery (m : List Nat) : Option SqlQuery :=
  match classifyTag m with
  | .tallest => some .tallestQ
  | .shortest => some .shortestQ
  | .topN => some (.topQ (topLimit m))
  | .compare =>
    if (compareFoundNames m).length < 2 then none
    else some (.compareQ (compareFoundNames m))
  | .heightRange => some (.rangeQ (rangeLo m) (rangeHi m))
  | .typeDistribution => some .typeDistQ
  | .search => some (.searchQ (foundTypes m) (searchHeightFilter m))
  | .statistics => some .statsQ
  | .nearby => none
  | .specificBuilding =>
    match knownBuildingNames.find? fun n => incl (toLowerMsg m) n with
    | none => none
    | some name => some (.specificQ name)
  | .addressSearch =>
    if (foundAddressKeywords m).isEmpty then none
    else some (.addressQ (foundAddressKeywords m))
  | .count =>
    if (foundTypes m).isEmpty then some .countAllQ
    else some (.countTypesQ (foundTypes m))
  | .help => none

/-- **C10.** Chatbot processing is case-insensitive: for every message and
every store state, the lower-cased message selects the same intent, issues
the same SQL statement with the same bound parameters, and produces the
same response — every trigger test and every parameter-extraction pattern
operates on lower-cased text or matches case-insensitively. -/
theorem C10_processing_case_insensitive (st : Store) (m : List Nat) :
    classifyTag (toLowerMsg m) = classifyTag m ∧
    issuedQuery (toLowerMsg m) = issuedQuery m ∧
    processQuery st (toLowerMsg m) = processQuery st m := by
  refine ⟨classifyTag_toLower m, ?_, ?_⟩
  · simp only [issuedQuery, classifyTag_toLower, topLimit_toLower, compareFoundNames_toLower,
      rangeLo_toLower, rangeHi_toLower, foundTypes_toLower, searchHeightFilter_toLower,
      toLowerMsg_idem, foundAddressKeywords_toLower]
  · simp only [processQuery, classifyTag_toLower, topLimit_toLower, compareBuildings_toLower,
      getHeightRangeAnalysis_toLower, searchBuildings_toLower, getSpecificBuilding_toLower,
      searchByAddress_toLower, getBuildingCount_toLower]
